import Mathlib

/-!
Verification of the multi-source flight-data ingestion engine
(`src/utils/apiclient.js` of the airport tracking system).

The JavaScript code is shallowly embedded: JS numbers are modelled by
rationals (exact arithmetic model of the numeric expressions the code
computes), optional / possibly-absent JSON fields by `Option`, and JS
truthiness tests (`!x`, `x ? a : b`, `x || y`) by explicit truthiness
functions on `Option` values (a number is falsy when absent or zero, a
string is falsy when absent or empty).  Network effects are modelled by
passing the provider response as an explicit argument together with a
boolean recording whether a network attempt was made.  Wall-clock
timestamp strings (`new Date().toISOString()`) are outside the model;
no claim depends on them.
-/

/-- JS truthiness of a possibly-absent number: absent (`undefined`/`null`)
and `0` are falsy. -/
def numTruthy (o : Option ℚ) : Bool :=
  match o with
  | none => false
  | some v => v != 0

/-- JS truthiness of a possibly-absent string: absent and `""` are falsy. -/
def strTruthy (o : Option String) : Bool :=
  match o with
  | none => false
  | some s => s != ""

/-- JS `a || b` on numbers, yielding the raw value of `b` when `a` is falsy. -/
def jsOrNum (a : Option ℚ) (b : ℚ) : ℚ :=
  if numTruthy a then a.getD 0 else b

/-- JS `a || b` on possibly-absent strings. -/
def jsOrStr (a b : Option String) : Option String :=
  if strTruthy a then a else b

/-- JS `x < c` where `x` may be absent: `undefined < c` is `false`. -/
def jsLtNum (o : Option ℚ) (c : ℚ) : Bool :=
  match o with
  | none => false
  | some v => v < c

/-- Raw aircraft entry as returned by the ADSB.lol provider.  Fields the
adapter reads; every field may be absent in the provider JSON. -/
structure RawAdsb where
  flight : Option String
  r : Option String
  hex : Option String
  flag : Option String
  lat : Option ℚ
  lon : Option ℚ
  alt_baro : Option ℚ
  alt_geom : Option ℚ
  gs : Option ℚ
  track : Option ℚ
  true_heading : Option ℚ
  baro_rate : Option ℚ
  seen : Option ℚ
deriving DecidableEq

/-- Raw OpenSky state vector (the fixed-position tuple), by field rather
than index: `callsign = state[1]`, `origin_country = state[2]`,
`last_contact = state[4]`, `lon = state[5]`, `lat = state[6]`,
`baro_altitude = state[7]`, `on_ground = state[8]`, `velocity = state[9]`,
`heading = state[10]`, `vertical_rate = state[11]`. -/
structure RawState where
  callsign : Option String
  origin_country : Option String
  last_contact : Option ℚ
  lon : Option ℚ
  lat : Option ℚ
  baro_altitude : Option ℚ
  on_ground : Option Bool
  velocity : Option ℚ
  heading : Option ℚ
  vertical_rate : Option ℚ
deriving DecidableEq

/-- Canonical live-position record produced by both position adapters
(the object literal built in the `.map` of each adapter).  `latitude`,
`longitude`, `origin_country` and `last_contact` are pass-through fields
and hence may be absent when the provider value was. -/
structure Flight where
  callsign : String
  origin_country : Option String
  longitude : Option ℚ
  latitude : Option ℚ
  altitude : ℚ
  velocity : ℚ
  heading : ℚ
  vertical_rate : ℚ
  on_ground : Bool
  last_contact : Option ℚ
deriving DecidableEq

/-- The `.filter` predicate of `getAdsbLolFlights` (apiclient.js lines
104-113): `if (!aircraft.lat || !aircraft.lon) return false;` then
`if (Math.abs(aircraft.lat) > 90 || Math.abs(aircraft.lon) > 180)
return false; return true;`. -/
def adsbKeep (a : RawAdsb) : Bool :=
  if !(numTruthy a.lat) || !(numTruthy a.lon) then false
  else if |a.lat.getD 0| > 90 ∨ |a.lon.getD 0| > 180 then false
  else true

/-- `aircraft.flight ? aircraft.flight.trim() : aircraft.r || aircraft.hex
|| 'UNKNOWN'` (line 115). -/
def adsbCallsign (a : RawAdsb) : String :=
  if strTruthy a.flight then (a.flight.getD "").trim
  else if strTruthy a.r then a.r.getD ""
  else if strTruthy a.hex then a.hex.getD ""
  else "UNKNOWN"

/-- `aircraft.alt_baro ? aircraft.alt_baro * 3.28084 : (aircraft.alt_geom ?
aircraft.alt_geom * 3.28084 : 0)` (line 119). -/
def adsbAltitude (a : RawAdsb) : ℚ :=
  if numTruthy a.alt_baro then a.alt_baro.getD 0 * 3.28084
  else if numTruthy a.alt_geom then a.alt_geom.getD 0 * 3.28084
  else 0

/-- `aircraft.alt_baro < 100 || aircraft.alt_geom < 100 || false`
(line 123); a JS comparison against an absent value is `false`. -/
def adsbOnGround (a : RawAdsb) : Bool :=
  jsLtNum a.alt_baro 100 || jsLtNum a.alt_geom 100

/-- The `.map` body of `getAdsbLolFlights` (lines 114-126). -/
def adsbRecord (a : RawAdsb) : Flight :=
  { callsign := adsbCallsign a
    origin_country := some (if strTruthy a.flag then a.flag.getD "" else "Unknown")
    longitude := a.lon
    latitude := a.lat
    altitude := adsbAltitude a
    velocity := jsOrNum a.gs 0
    heading := jsOrNum a.track (jsOrNum a.true_heading 0)
    vertical_rate := if numTruthy a.baro_rate then a.baro_rate.getD 0 * 196.85 else 0
    on_ground := adsbOnGround a
    last_contact := some (jsOrNum a.seen 0) }

/-- Normalization pipeline of `getAdsbLolFlights` on the provider
aircraft array (lines 103-126): filter, then map. -/
def getAdsbLolFlights (aircraftData : List RawAdsb) : List Flight :=
  (aircraftData.filter adsbKeep).map adsbRecord

/-! ## OpenSky fallback adapter and its rate governor -/

/-- Rate-governor state held on the client instance (constructor lines
32-35): `lastOpenSkyCall`, `openSkyRetryAfter`, `openSkyDisabledUntil`,
all millisecond timestamps. -/
structure GovState where
  lastOpenSkyCall : Int
  openSkyRetryAfter : Int
  openSkyDisabledUntil : Int
deriving DecidableEq

/-- `this.openSkyMinInterval = 10000` (line 33). -/
def openSkyMinInterval : Int := 10000

/-- Outcome of the network attempt inside `getOpenSkyFlights`, supplied
to the model as data: a successful response whose `data.states` may be
absent, an HTTP 429 whose retry-after-seconds header may be absent, or
any other failure. -/
inductive NetResult where
  | ok (states : Option (List RawState))
  | err429 (retryAfterHeader : Option Int)
  | errOther
deriving DecidableEq

/-- The `.map` body of `getOpenSkyFlights` (lines 216-228). -/
def openSkyRecord (s : RawState) : Flight :=
  { callsign := if strTruthy s.callsign then (s.callsign.getD "").trim else "UNKNOWN"
    origin_country := s.origin_country
    longitude := s.lon
    latitude := s.lat
    altitude := if numTruthy s.baro_altitude then s.baro_altitude.getD 0 * 3.28084 else 0
    velocity := if numTruthy s.velocity then s.velocity.getD 0 * 1.94384 else 0
    heading := jsOrNum s.heading 0
    vertical_rate := jsOrNum s.vertical_rate 0
    on_ground := s.on_ground.getD false
    last_contact := s.last_contact }

/-- Result of one call to `getOpenSkyFlights`: the returned list, the
client state after the call, and whether a network attempt was made. -/
structure OpenSkyOutcome where
  flights : List Flight
  state : GovState
  networkCalled : Bool
deriving DecidableEq

/-- `getOpenSkyFlights` (lines 152-258).  The three governor guards
(disabledUntil, retryAfter, minimum interval, in that order, lines
157-174) each return `[]` with no network attempt and no state change.
Otherwise the network is attempted: on success `lastOpenSkyCall := now`
(line 209) and the states are mapped (or `[]` when `data.states` is
absent, lines 211-213); on a 429 the catch block (lines 240-251) reads
the retry-after header (default 60), sets
`openSkyRetryAfter := now + retryAfterSeconds * 1000` and, when
`retryAfterSeconds > 300`, also `openSkyDisabledUntil :=
openSkyRetryAfter`; any other error just returns `[]`. -/
def getOpenSkyFlights (g : GovState) (now : Int) (net : NetResult) : OpenSkyOutcome :=
  if now < g.openSkyDisabledUntil then ⟨[], g, false⟩
  else if now < g.openSkyRetryAfter then ⟨[], g, false⟩
  else if now - g.lastOpenSkyCall < openSkyMinInterval then ⟨[], g, false⟩
  else
    match net with
    | .ok states =>
        let g1 : GovState := { g with lastOpenSkyCall := now }
        match states with
        | none => ⟨[], g1, true⟩
        | some ss => ⟨ss.map openSkyRecord, g1, true⟩
    | .err429 hdr =>
        let retryAfterSeconds := hdr.getD 60
        let until1 := now + retryAfterSeconds * 1000
        let g1 : GovState :=
          { g with
            openSkyRetryAfter := until1
            openSkyDisabledUntil :=
              if retryAfterSeconds > 300 then until1 else g.openSkyDisabledUntil }
        ⟨[], g1, true⟩
    | .errOther => ⟨[], g, true⟩

/-! ## AviationStack schedule adapter -/

/-- One leg (`departure` / `arrival`) of a raw or canonical schedule
entry; the adapter copies these seven fields verbatim (lines 306-323). -/
structure LegInfo where
  airport : Option String
  iata : Option String
  scheduled : Option String
  estimated : Option String
  actual : Option String
  terminal : Option String
  gate : Option String
deriving DecidableEq

/-- The nested `flight` object of a raw AviationStack entry. -/
structure RawFlightIds where
  iata : Option String
  icao : Option String
deriving DecidableEq

/-- The nested `airline` object of a raw AviationStack entry. -/
structure RawAirline where
  name : Option String
  iata : Option String
deriving DecidableEq

/-- The nested `aircraft` object of a raw AviationStack entry. -/
structure RawAircraft where
  registration : Option String
  iata : Option String
  icao : Option String
deriving DecidableEq

/-- Raw AviationStack flight entry; each nested object may itself be
absent from the provider JSON. -/
structure RawScheduleEntry where
  flight : Option RawFlightIds
  airline : Option RawAirline
  departure : Option LegInfo
  arrival : Option LegInfo
  flight_status : Option String
  aircraft : Option RawAircraft
deriving DecidableEq

/-- Canonical schedule record (the object literal of lines 302-330). -/
structure Schedule where
  flightNumber : Option String
  airline : Option String
  airlineCode : Option String
  departure : LegInfo
  arrival : LegInfo
  status : Option String
  aircraft : RawAircraft
deriving DecidableEq

/-- The `.map` body of `getAviationStackFlights` (lines 302-330).
`flight.flight`, `flight.airline`, `flight.departure` and
`flight.arrival` are dereferenced without optional chaining, so when any
of them is absent the property access throws a TypeError (modelled as
`none`); only `flight.aircraft` uses `?.` and tolerates absence. -/
def normalizeSchedule (f : RawScheduleEntry) : Option Schedule :=
  match f.flight, f.airline, f.departure, f.arrival with
  | some fl, some al, some dep, some arr =>
      some
        { flightNumber := jsOrStr fl.iata fl.icao
          airline := al.name
          airlineCode := al.iata
          departure := dep
          arrival := arr
          status := f.flight_status
          aircraft :=
            { registration := f.aircraft.bind RawAircraft.registration
              iata := f.aircraft.bind RawAircraft.iata
              icao := f.aircraft.bind RawAircraft.icao } }
  | _, _, _, _ => none

/-- JS `Array.prototype.map` with a body that can throw: the first
throwing element aborts the whole map (the exception propagates). -/
def mapRecords : List RawScheduleEntry → Option (List Schedule)
  | [] => some []
  | e :: rest =>
      match normalizeSchedule e, mapRecords rest with
      | some s, some ss => some (s :: ss)
      | _, _ => none

/-- `getAviationStackFlights` (lines 264-338): with a falsy key, return
`[]` before any network activity (lines 266-269); with an absent
`response.data.data`, return `[]` (lines 297-299); otherwise map the
entries, a TypeError anywhere being caught by the surrounding
try/catch which returns `[]` (lines 334-337).  The second component
records whether a network request was issued. -/
def getAviationStackFlights (aviationStackKey : Option String)
    (data : Option (List RawScheduleEntry)) : List Schedule × Bool :=
  if !(strTruthy aviationStackKey) then ([], false)
  else
    match data with
    | none => ([], true)
    | some ds =>
        match mapRecords ds with
        | some out => (out, true)
        | none => ([], true)

/-! ## Orchestrator -/

/-- The envelope returned by `getAllFlights` (lines 364-371), without
the wall-clock `timestamp` field. -/
structure AllFlightsResult where
  livePositions : List Flight
  schedules : List Schedule
  totalLive : Nat
  totalScheduled : Nat
  source : String
deriving DecidableEq

/-- Envelope assembly (lines 364-371): `source` is computed from
`livePositions.length > 0` and the `useAdsbLol` configuration flag. -/
def assembleEnvelope (useAdsbLol : Bool) (live : List Flight)
    (scheds : List Schedule) : AllFlightsResult :=
  { livePositions := live
    schedules := scheds
    totalLive := live.length
    totalScheduled := scheds.length
    source :=
      if live.length > 0 then (if useAdsbLol then "ADSB.lol" else "OpenSky")
      else "None" }

/-- `getAllFlights` outcome instrumented with adapter invocation counts,
so that the fallback-invocation claims are expressible. -/
structure AllFlightsTrace where
  result : AllFlightsResult
  primaryCalls : Nat
  fallbackCalls : Nat
deriving DecidableEq

/-- `getAllFlights` (lines 343-376) with the adapter results supplied as
data: when `useAdsbLol`, call the primary adapter (one invocation) and,
only if it returned `[]`, call the fallback adapter (lines 348-355);
otherwise call the fallback directly (line 358); then assemble the
envelope with the independently fetched schedules. -/
def getAllFlights (useAdsbLol : Bool) (primaryResult fallbackResult : List Flight)
    (scheduleResult : List Schedule) : AllFlightsTrace :=
  if useAdsbLol then
    if primaryResult.length = 0 then
      { result := assembleEnvelope useAdsbLol fallbackResult scheduleResult
        primaryCalls := 1
        fallbackCalls := 1 }
    else
      { result := assembleEnvelope useAdsbLol primaryResult scheduleResult
        primaryCalls := 1
        fallbackCalls := 0 }
  else
    { result := assembleEnvelope useAdsbLol fallbackResult scheduleResult
      primaryCalls := 0
      fallbackCalls := 1 }

/-! ## GeoMath -/

/-- `toRad` (lines 394-396): `degrees * Math.PI / 180`, over the real
model of JS numbers. -/
noncomputable def toRad (degrees : ℝ) : ℝ :=
  degrees * Real.pi / 180

/-- `Math.atan2(y, x)` per its mathematical definition, over the real
model. -/
noncomputable def atan2 (y x : ℝ) : ℝ :=
  if 0 < x then Real.arctan (y / x)
  else if x < 0 then
    (if 0 ≤ y then Real.arctan (y / x) + Real.pi else Real.arctan (y / x) - Real.pi)
  else if 0 < y then Real.pi / 2
  else if y < 0 then -(Real.pi / 2)
  else 0

/-- The local `a` of `calculateDistance` (lines 386-388):
`sin(dLat/2)^2 + cos(toRad lat1) * cos(toRad lat2) * sin(dLon/2)^2`
with `dLat = toRad (lat2 - lat1)` and `dLon = toRad (lon2 - lon1)`. -/
noncomputable def haversineA (lat1 lon1 lat2 lon2 : ℝ) : ℝ :=
  Real.sin (toRad (lat2 - lat1) / 2) * Real.sin (toRad (lat2 - lat1) / 2) +
    Real.cos (toRad lat1) * Real.cos (toRad lat2) *
      Real.sin (toRad (lon2 - lon1) / 2) * Real.sin (toRad (lon2 - lon1) / 2)

/-- `calculateDistance` (lines 381-392): Earth radius 6371 km,
`c = 2 * atan2(sqrt a, sqrt (1 - a))`, result `R * c`. -/
noncomputable def calculateDistance (lat1 lon1 lat2 lon2 : ℝ) : ℝ :=
  6371 *
    (2 * atan2 (Real.sqrt (haversineA lat1 lon1 lat2 lon2))
      (Real.sqrt (1 - haversineA lat1 lon1 lat2 lon2)))

/-! ## Sample inputs for concrete instantiations -/

/-- An ADSB.lol entry sitting exactly on the equator (latitude 0). -/
def zeroLatA : RawAdsb :=
  ⟨none, none, none, none, some 0, some 8, none, none, none, none, none, none, none⟩

/-- A well-formed ADSB.lol entry: barometric altitude 300 m, valid
coordinates near Frankfurt. -/
def goodAdsb : RawAdsb :=
  ⟨some "DLH123", none, some "3c6444", some "DE", some 50, some 8, some 300, none,
    some 200, some 90, none, none, some 1⟩

/-- An ADSB.lol entry whose barometric altitude is present but zero,
with a nonzero geometric altitude. -/
def zeroBaro : RawAdsb :=
  ⟨none, none, none, none, some 50, some 8, some 0, some 50, none, none, none, none, none⟩

/-- A governor state with no restriction active at time 0. -/
def govReady : GovState := ⟨-100000, 0, 0⟩

/-- An OpenSky state vector carrying the out-of-range latitude 100. -/
def badLatState : RawState :=
  ⟨some "X", some "DE", some 1, some 8, some 100, some 1000, some false, some 10,
    some 90, some 0⟩

/-- A canonical live-position record used as a nonempty adapter result. -/
def sampleFlight : Flight :=
  ⟨"DLH123", some "DE", some 8, some 50, 984, 200, 90, 0, false, some 1⟩

/-- A fully populated raw AviationStack entry. -/
def goodSched : RawScheduleEntry :=
  { flight := some ⟨some "LH400", some "DLH400"⟩
    airline := some ⟨some "Lufthansa", some "LH"⟩
    departure := some ⟨some "Frankfurt", some "FRA", some "t1", none, none, some "1", some "A1"⟩
    arrival := some ⟨some "JFK", some "JFK", some "t2", none, none, some "4", some "B2"⟩
    flight_status := some "active"
    aircraft := some ⟨some "D-ABCD", some "744", some "B744"⟩ }

/-- A raw AviationStack entry whose nested `departure` object is absent. -/
def badSched : RawScheduleEntry :=
  { flight := some ⟨some "LH401", none⟩
    airline := some ⟨some "Lufthansa", some "LH"⟩
    departure := none
    arrival := some ⟨some "JFK", some "JFK", some "t2", none, none, none, none⟩
    flight_status := some "scheduled"
    aircraft := none }

/-! ## Claim theorems -/

/-- Claim C10: an aircraft entry whose latitude or longitude is exactly 0
(a valid equator / prime-meridian coordinate) is dropped by
`getAdsbLolFlights`, because the presence test `!aircraft.lat ||
!aircraft.lon` uses JS truthiness and `0` is falsy. -/
theorem adsb_zero_coordinate_dropped (a : RawAdsb) (h : a.lat = some 0 ∨ a.lon = some 0) :
    adsbKeep a = false ∧ ∀ rest, getAdsbLolFlights (a :: rest) = getAdsbLolFlights rest := by
  have hk : adsbKeep a = false := by
    rcases h with h | h <;> simp [adsbKeep, h, numTruthy]
  exact ⟨hk, fun rest => by simp [getAdsbLolFlights, List.filter_cons, hk]⟩

/-- Witness for C10: the concrete zero-latitude entry is dropped. -/
theorem adsb_zero_coordinate_dropped_w :
    adsbKeep zeroLatA = false ∧ getAdsbLolFlights [zeroLatA] = getAdsbLolFlights [] :=
  ⟨(adsb_zero_coordinate_dropped zeroLatA (Or.inl rfl)).1,
   (adsb_zero_coordinate_dropped zeroLatA (Or.inl rfl)).2 []⟩

/-- Claim C8 (amended): the emitted altitude is the barometric altitude
times 3.28084 when that field is present and nonzero (JS truthiness,
not mere presence), else the geometric altitude times 3.28084 when
present and nonzero, else 0; `on_ground` is true exactly when some
present altitude source is below 100 native units; an entry with
barometric altitude 300 yields altitude 984.252 and `on_ground =
false`. -/
theorem adsb_altitude_onground (a : RawAdsb) :
    (∀ b : ℚ, a.alt_baro = some b → b ≠ 0 → adsbAltitude a = b * 3.28084)
    ∧ (∀ g : ℚ, a.alt_baro = none ∨ a.alt_baro = some 0 → a.alt_geom = some g → g ≠ 0 →
        adsbAltitude a = g * 3.28084)
    ∧ (a.alt_baro = none ∨ a.alt_baro = some 0 → a.alt_geom = none ∨ a.alt_geom = some 0 →
        adsbAltitude a = 0)
    ∧ (adsbOnGround a = true ↔ ∃ v : ℚ, (a.alt_baro = some v ∨ a.alt_geom = some v) ∧ v < 100)
    ∧ (a.alt_baro = some 300 → a.alt_geom = none →
        adsbAltitude a = 984.252 ∧ adsbOnGround a = false) := by
  refine ⟨?_, ?_, ?_, ?_, ?_⟩
  · intro b hb hb0
    simp [adsbAltitude, hb, numTruthy, hb0]
  · intro g hbar hg hg0
    rcases hbar with h | h <;> simp [adsbAltitude, h, hg, numTruthy, hg0]
  · intro hbar hgeo
    rcases hbar with h | h <;> rcases hgeo with h2 | h2 <;>
      simp [adsbAltitude, h, h2, numTruthy]
  · cases hb : a.alt_baro <;> cases hg : a.alt_geom <;>
      simp [adsbOnGround, jsLtNum, hb, hg]
    aesop
  · intro hb hg
    exact ⟨by norm_num [adsbAltitude, hb, numTruthy],
      by norm_num [adsbOnGround, jsLtNum, hb, hg]⟩

/-- Witness for C8: the concrete 300 m barometric-altitude entry. -/
theorem adsb_altitude_onground_w :
    adsbAltitude goodAdsb = 984.252 ∧ adsbOnGround goodAdsb = false :=
  (adsb_altitude_onground goodAdsb).2.2.2.2 rfl rfl

/-- Counterexample for C8 as stated: `zeroBaro` has its barometric
altitude present (value 0), yet the emitted altitude is the geometric
fallback 50 × 3.28084 = 164.042, not 0 × 3.28084, because the code
tests the field with JS truthiness. -/
theorem adsb_altitude_truthiness_cex :
    zeroBaro.alt_baro = some 0 ∧ adsbAltitude zeroBaro = 164.042
      ∧ (164.042 : ℚ) ≠ 0 * 3.28084 :=
  ⟨rfl, by norm_num [adsbAltitude, zeroBaro, numTruthy], by norm_num⟩

/-- Claim C1 (amended): every record emitted by `getAdsbLolFlights` has
latitude and longitude present with absolute value at most 90 / 180
(invalid entries are filtered, not errored); the OpenSky adapter,
however, performs no coordinate validation (see the counterexample). -/
theorem adsb_emitted_coords_valid (raw : List RawAdsb) (rec : Flight)
    (h : rec ∈ getAdsbLolFlights raw) :
    ∃ la lo, rec.latitude = some la ∧ rec.longitude = some lo ∧ |la| ≤ 90 ∧ |lo| ≤ 180 := by
  rcases List.mem_map.1 h with ⟨a, ha, rfl⟩
  have hk : adsbKeep a = true := List.of_mem_filter ha
  unfold adsbKeep at hk
  split_ifs at hk with h1 h2
  simp only [Bool.or_eq_true, Bool.not_eq_true'] at h1
  push_neg at h1
  obtain ⟨hlat, hlon⟩ := h1
  cases hla : a.lat with
  | none => simp [numTruthy, hla] at hlat
  | some la =>
    cases hlo : a.lon with
    | none => simp [numTruthy, hlo] at hlon
    | some lo =>
      push_neg at h2
      rw [hla, hlo] at h2
      simp only [Option.getD_some] at h2
      exact ⟨la, lo, by simp [adsbRecord, hla], by simp [adsbRecord, hlo],
        h2.1, h2.2⟩

/-- Witness for C1 (amended): the record normalized from `goodAdsb` is
emitted and carries valid coordinates. -/
theorem adsb_emitted_coords_valid_w :
    ∃ la lo, (adsbRecord goodAdsb).latitude = some la
      ∧ (adsbRecord goodAdsb).longitude = some lo ∧ |la| ≤ 90 ∧ |lo| ≤ 180 :=
  adsb_emitted_coords_valid [goodAdsb] (adsbRecord goodAdsb)
    (by simp [getAdsbLolFlights, List.filter_cons, (by decide : adsbKeep goodAdsb = true)])

/-- Counterexample for C1 as stated: with the governor permitting the
call, the OpenSky adapter emits a record whose latitude is 100, which
violates the valid-coordinate invariant the claim asserts for both
position adapters. -/
theorem opensky_invalid_coord_emitted_cex :
    (getOpenSkyFlights govReady 0 (NetResult.ok (some [badLatState]))).flights.map Flight.latitude
      = [some 100] ∧ ¬ (|(100 : ℚ)| ≤ 90) :=
  ⟨by decide, by decide⟩

/-- Shared helper: any of the three governor guards makes
`getOpenSkyFlights` return `[]` with no network attempt and the state
unchanged. -/
lemma openSky_reject (g : GovState) (now : Int) (net : NetResult)
    (h : now < g.openSkyDisabledUntil ∨ now < g.openSkyRetryAfter ∨
      now - g.lastOpenSkyCall < openSkyMinInterval) :
    getOpenSkyFlights g now net = ⟨[], g, false⟩ := by
  unfold getOpenSkyFlights
  split_ifs with h1 h2 h3
  · rfl
  · rfl
  · rfl
  · tauto

/-- Claim C6: when `now < disabledUntil`, or `now < retryAfterUntil`, or
`now - lastCallAt < minIntervalMs`, the quota-limited adapter returns
the empty list without a network call, without raising, and with the
governor state unchanged. -/
theorem opensky_governor_rejects (g : GovState) (now : Int) (net : NetResult)
    (h : now < g.openSkyDisabledUntil ∨ now < g.openSkyRetryAfter ∨
      now - g.lastOpenSkyCall < openSkyMinInterval) :
    getOpenSkyFlights g now net = ⟨[], g, false⟩ :=
  openSky_reject g now net h

/-- Witness for C6: a state disabled until time 1000, called at time 0. -/
theorem opensky_governor_rejects_w :
    getOpenSkyFlights ⟨0, 0, 1000⟩ 0 NetResult.errOther = ⟨[], ⟨0, 0, 1000⟩, false⟩ :=
  opensky_governor_rejects ⟨0, 0, 1000⟩ 0 NetResult.errOther (Or.inl (by decide))

/-- Claim C5: on an HTTP 429 the quota-limited adapter sets
`openSkyRetryAfter` to `now + retryAfterSeconds * 1000` (header value,
default 60), sets `openSkyDisabledUntil` to the same value exactly when
`retryAfterSeconds > 300`, and after a 429 with retry-after 600 every
call within the next 600 seconds returns `[]` without a network
attempt. -/
theorem opensky_429_backoff (g : GovState) (t : Int) (hdr : Option Int)
    (h1 : ¬ t < g.openSkyDisabledUntil) (h2 : ¬ t < g.openSkyRetryAfter)
    (h3 : ¬ t - g.lastOpenSkyCall < openSkyMinInterval) :
    ((getOpenSkyFlights g t (NetResult.err429 hdr)).state.openSkyRetryAfter
        = t + hdr.getD 60 * 1000)
    ∧ ((getOpenSkyFlights g t (NetResult.err429 hdr)).state.openSkyDisabledUntil
        = if hdr.getD 60 > 300 then t + hdr.getD 60 * 1000 else g.openSkyDisabledUntil)
    ∧ (hdr = some 600 → ∀ t2 net, t2 < t + 600 * 1000 →
        getOpenSkyFlights (getOpenSkyFlights g t (NetResult.err429 hdr)).state t2 net
          = ⟨[], (getOpenSkyFlights g t (NetResult.err429 hdr)).state, false⟩) := by
  have hrun : getOpenSkyFlights g t (NetResult.err429 hdr) =
      ⟨[], { g with
              openSkyRetryAfter := t + hdr.getD 60 * 1000
              openSkyDisabledUntil :=
                if hdr.getD 60 > 300 then t + hdr.getD 60 * 1000
                else g.openSkyDisabledUntil }, true⟩ := by
    unfold getOpenSkyFlights
    rw [if_neg h1, if_neg h2, if_neg h3]
  rw [hrun]
  refine ⟨rfl, rfl, ?_⟩
  rintro rfl t2 net hlt
  apply openSky_reject
  left
  show t2 < (if ((600 : Int) > 300) then t + 600 * 1000 else g.openSkyDisabledUntil)
  rw [if_pos (by norm_num)]
  linarith

/-- Witness for C5: a 429 with retry-after 600 at time 0, then a call at
599999 ms that is rejected without network activity. -/
theorem opensky_429_backoff_w :
    ((getOpenSkyFlights govReady 0 (NetResult.err429 (some 600))).state.openSkyRetryAfter
        = 600000)
    ∧ getOpenSkyFlights (getOpenSkyFlights govReady 0 (NetResult.err429 (some 600))).state
        599999 NetResult.errOther
      = ⟨[], (getOpenSkyFlights govReady 0 (NetResult.err429 (some 600))).state, false⟩ :=
  ⟨(opensky_429_backoff govReady 0 (some 600) (by decide) (by decide) (by decide)).1,
   (opensky_429_backoff govReady 0 (some 600) (by decide) (by decide) (by decide)).2.2
     rfl 599999 NetResult.errOther (by decide)⟩

/-- Claim C7: with no AviationStack API key configured, the schedule
adapter returns the empty list with no network call, whatever the
provider would have answered. -/
theorem aviationstack_no_key_no_network (data : Option (List RawScheduleEntry)) :
    getAviationStackFlights none data = ([], false) := rfl

/-- Helper: a raw schedule entry missing any of the four nested objects
dereferenced without optional chaining throws, i.e. normalizes to
`none`. -/
lemma normalizeSchedule_eq_none (e : RawScheduleEntry)
    (h : e.flight = none ∨ e.airline = none ∨ e.departure = none ∨ e.arrival = none) :
    normalizeSchedule e = none := by
  unfold normalizeSchedule
  rcases hf : e.flight with _ | fl <;> rcases ha : e.airline with _ | al <;>
    rcases hd : e.departure with _ | dep <;> rcases hr : e.arrival with _ | arr <;>
    simp_all

/-- Helper: one throwing record aborts the whole JS `.map`. -/
lemma mapRecords_none_of_mem (ds : List RawScheduleEntry) (e : RawScheduleEntry)
    (he : e ∈ ds) (hn : normalizeSchedule e = none) : mapRecords ds = none := by
  induction ds with
  | nil => cases he
  | cons d rest ih =>
    rcases List.mem_cons.1 he with rfl | hmem
    · simp only [mapRecords, hn]
    · simp only [mapRecords, ih hmem]
      cases normalizeSchedule d <;> rfl

/-- Claim C3 (amended): a record whose optional `aircraft` object is
missing is tolerated (all four other nested objects present suffice for
normalization), but a record missing `flight`, `airline`, `departure`
or `arrival` throws inside the `.map`, and the batch-level catch then
collapses the entire result to the empty list. -/
theorem aviationstack_malformed_record (e : RawScheduleEntry) :
    (e.flight ≠ none → e.airline ≠ none → e.departure ≠ none → e.arrival ≠ none →
      (normalizeSchedule e).isSome = true)
    ∧ ((e.flight = none ∨ e.airline = none ∨ e.departure = none ∨ e.arrival = none) →
        normalizeSchedule e = none
        ∧ ∀ key ds, e ∈ ds → (getAviationStackFlights key (some ds)).1 = []) := by
  constructor
  · intro hf ha hd hr
    rcases hfe : e.flight with _ | fl
    · exact absurd hfe hf
    rcases hae : e.airline with _ | al
    · exact absurd hae ha
    rcases hde : e.departure with _ | dep
    · exact absurd hde hd
    rcases hre : e.arrival with _ | arr
    · exact absurd hre hr
    simp [normalizeSchedule, hfe, hae, hde, hre]
  · intro h
    have hn := normalizeSchedule_eq_none e h
    refine ⟨hn, fun key ds hmem => ?_⟩
    have hm := mapRecords_none_of_mem ds e hmem hn
    cases hkey : strTruthy key <;> simp [getAviationStackFlights, hkey, hm]

/-- Witness for C3 (amended): `goodSched` normalizes even though
`badSched` lacks a `departure` object and empties the whole batch. -/
theorem aviationstack_malformed_record_w :
    (normalizeSchedule goodSched).isSome = true
    ∧ (getAviationStackFlights (some "key") (some [goodSched, badSched])).1 = [] :=
  ⟨(aviationstack_malformed_record goodSched).1 (by decide) (by decide) (by decide) (by decide),
   ((aviationstack_malformed_record badSched).2 (Or.inr (Or.inr (Or.inl rfl)))).2
     (some "key") [goodSched, badSched] (by simp)⟩

/-- Counterexample for C3 as stated: a batch holding one well-formed
record and one record missing its `departure` object returns the empty
list, although the well-formed record was normalizable, so the batch
does collapse because of a single malformed record. -/
theorem aviationstack_batch_collapse_cex :
    getAviationStackFlights (some "key") (some [goodSched, badSched]) = ([], true)
    ∧ (normalizeSchedule goodSched).isSome = true :=
  ⟨rfl, rfl⟩

/-- Claim C4: with the primary feed preferred, the primary adapter is
invoked once; the fallback adapter is invoked exactly once when the
primary returned `[]` and never when the primary returned one or more
records. -/
theorem getAllFlights_fallback_policy (p f : List Flight) (s : List Schedule) :
    (getAllFlights true p f s).primaryCalls = 1
    ∧ (p = [] → (getAllFlights true p f s).fallbackCalls = 1)
    ∧ (p ≠ [] → (getAllFlights true p f s).fallbackCalls = 0) := by
  refine ⟨?_, ?_, ?_⟩
  · cases p <;> rfl
  · rintro rfl; rfl
  · intro hne
    cases p with
    | nil => exact absurd rfl hne
    | cons x rest => rfl

/-- Witness for C4: empty primary result versus one-record primary
result. -/
theorem getAllFlights_fallback_policy_w :
    (getAllFlights true [] [sampleFlight] []).fallbackCalls = 1
    ∧ (getAllFlights true [sampleFlight] [] []).fallbackCalls = 0 :=
  ⟨(getAllFlights_fallback_policy [] [sampleFlight] []).2.1 rfl,
   (getAllFlights_fallback_policy [sampleFlight] [] []).2.2 (by simp)⟩

/-- Claim C2 (amended): `source` is `"None"` exactly when
`livePositions` is empty; when `livePositions` is nonempty, `source` is
determined by the `useAdsbLol` configuration flag alone — `"ADSB.lol"`
when the flag is set, even when the fallback adapter actually produced
the data, and `"OpenSky"` otherwise. -/
theorem getAllFlights_source_flag (u : Bool) (p f : List Flight) (s : List Schedule) :
    ((getAllFlights u p f s).result.source = "None"
        ↔ (getAllFlights u p f s).result.livePositions = [])
    ∧ ((getAllFlights u p f s).result.livePositions ≠ [] →
        (getAllFlights u p f s).result.source = if u then "ADSB.lol" else "OpenSky") := by
  cases u <;> rcases p with _ | ⟨x, pr⟩ <;> rcases f with _ | ⟨y, fr⟩ <;>
    simp [getAllFlights, assembleEnvelope]

/-- Witness for C2 (amended): nonempty live positions with the flag set
give source `"ADSB.lol"`. -/
theorem getAllFlights_source_flag_w :
    (getAllFlights true [] [sampleFlight] []).result.source = "ADSB.lol" :=
  (getAllFlights_source_flag true [] [sampleFlight] []).2 (by decide)

/-- Counterexample for C2 as stated: the primary adapter returned `[]`
and the fallback produced the returned positions, yet `source` is the
primary feed name `"ADSB.lol"`, not the fallback feed name. -/
theorem getAllFlights_source_cex :
    (getAllFlights true [] [sampleFlight] []).result.livePositions = [sampleFlight]
    ∧ (getAllFlights true [] [sampleFlight] []).result.source = "ADSB.lol"
    ∧ "ADSB.lol" ≠ "OpenSky" :=
  ⟨rfl, rfl, by decide⟩

/-- Helper: the Haversine intermediate value is symmetric under
swapping the two coordinate points, since the squared sines of the
half-angle differences are even and the cosine product commutes. -/
lemma haversineA_symm (lat1 lon1 lat2 lon2 : ℝ) :
    haversineA lat1 lon1 lat2 lon2 = haversineA lat2 lon2 lat1 lon1 := by
  unfold haversineA toRad
  have e1 : (lat1 - lat2) * Real.pi / 180 / 2 = -((lat2 - lat1) * Real.pi / 180 / 2) := by
    ring
  have e2 : (lon1 - lon2) * Real.pi / 180 / 2 = -((lon2 - lon1) * Real.pi / 180 / 2) := by
    ring
  rw [e1, e2]
  simp only [Real.sin_neg]
  ring

/-- Claim C9: the Haversine distance is symmetric in its two coordinate
points. -/
theorem calculateDistance_symm (lat1 lon1 lat2 lon2 : ℝ) :
    calculateDistance lat1 lon1 lat2 lon2 = calculateDistance lat2 lon2 lat1 lon1 := by
  unfold calculateDistance
  rw [haversineA_symm]
